import Mathlib

/-!
Shallow embedding of the two scikit/plotly notebooks in this repository:
(1) the model-complexity sweep (`benchmark_influence`, `plot_influence`,
    the `configurations` list), and
(2) the OOB-error trajectory tracker for warm-started random forests.

The external library (estimator construction, `fit`, `predict`, OOB scoring)
and the wall clock (`time.time()`) are modelled as explicit function
parameters; `fit`/`predict` may fail (Python exceptions become `Except`).
Python floats are modelled as `ℚ`; the Python dicts holding hyperparameters
become association lists over `String` keys.
-/

namespace ModelComplexity

/-- Python dict assignment `d[k] = v` on an association list (Python dicts
hold each key once): the binding is updated in place when the key is
present, otherwise appended at the end (insertion order). -/
def dictSet {V : Type} : List (String × V) → String → V → List (String × V)
  | [], k, v => [(k, v)]
  | p :: d, k, v => if p.1 = k then (k, v) :: d else p :: dictSet d k v

/-- Python dict lookup `d[k]` (first matching key). -/
def dictGet {V : Type} (d : List (String × V)) (k : String) : Option V :=
  (d.find? (fun p => p.1 = k)).map (·.2)

/-- The `data` dict built by `generate_data`: a fixed train/test split. -/
structure Data (Feat Lab : Type) where
  X_train : Feat
  X_test : Feat
  y_train : Lab
  y_test : Lab
deriving DecidableEq

/-- One entry of the `configurations` list consumed by `benchmark_influence`.
`estimator` models `conf['estimator'](**conf['tuned_params'])` (the class
applied to the keyword dict); `estimator_name` models the class's
`__name__` used only by `plot_influence`. -/
structure SweepConf (Est Feat Lab Val Pred : Type) where
  estimator : List (String × Val) → Est
  estimator_name : String
  tuned_params : List (String × Val)
  changing_param : String
  changing_param_values : List Val
  complexity_label : String
  complexity_computer : Est → Int
  prediction_performance_computer : Lab → Pred → ℚ
  prediction_performance_label : String
  postfit_hook : Est → Est
  data : Data Feat Lab
  n_samples : Nat

/-- The external statistical library: `fit` returns the fitted estimator
(sklearn's `fit` returns `self`), `predict` returns predictions; either
may raise, modelled by `Except`. -/
structure Lib (Est Feat Lab Pred Err : Type) where
  fit : Est → Feat → Lab → Except Err Est
  predict : Est → Feat → Except Err Pred

/-- Errors observable from `benchmark_influence`: an exception propagated
from the external library, or one of Python's own runtime errors that the
loop body could raise (`ZeroDivisionError` from `/ float(n_samples)` when
`n_samples = 0`, `NameError` from reading `y_pred` before assignment). -/
inductive RunError (Err : Type) where
  | external (e : Err)
  | zeroDiv
  | nameError
deriving DecidableEq

/-- The local loop state of `benchmark_influence`: the (mutated) `conf`
argument, the number of `time.time()` calls made so far, and the three
accumulator lists. -/
structure SweepState (Est Feat Lab Val Pred : Type) where
  conf : SweepConf Est Feat Lab Val Pred
  clockIdx : Nat
  prediction_powers : List ℚ
  prediction_times : List ℚ
  complexities : List Int

/-- `for _ in range(n): y_pred = estimator.predict(X_test)`: run `predict`
`n` times in sequence, keep the last value; `none` when `n = 0` (in Python
`y_pred` is then left unbound). -/
def repeatPredict {Est Feat Lab Pred Err : Type} (lib : Lib Est Feat Lab Pred Err)
    (est : Est) (X : Feat) : Nat → Except Err (Option Pred)
  | 0 => .ok none
  | n + 1 => do
    let _ ← repeatPredict lib est X n
    let y ← lib.predict est X
    pure (some y)

/-- One iteration of the `for param_value in conf['changing_param_values']`
loop of `benchmark_influence`. On a Python exception the error is returned
together with the `conf` as already mutated at the point of the raise. -/
def sweepStep {Est Feat Lab Val Pred Err : Type} (lib : Lib Est Feat Lab Pred Err)
    (clock : Nat → ℚ) (s : SweepState Est Feat Lab Val Pred) (param_value : Val) :
    Except (RunError Err × SweepConf Est Feat Lab Val Pred)
      (SweepState Est Feat Lab Val Pred) :=
  -- conf['tuned_params'][conf['changing_param']] = param_value
  let conf :=
    { s.conf with
      tuned_params := dictSet s.conf.tuned_params s.conf.changing_param param_value }
  -- estimator = conf['estimator'](**conf['tuned_params'])
  let estimator := conf.estimator conf.tuned_params
  -- estimator.fit(conf['data']['X_train'], conf['data']['y_train'])
  match lib.fit estimator conf.data.X_train conf.data.y_train with
  | .error e => .error (.external e, conf)
  | .ok fitted =>
    -- conf['postfit_hook'](estimator)  (the hook mutates the estimator)
    let estimator := conf.postfit_hook fitted
    -- complexity = conf['complexity_computer'](estimator); complexities.append
    let complexity := conf.complexity_computer estimator
    let complexities := s.complexities ++ [complexity]
    -- start_time = time.time()
    let start_time := clock s.clockIdx
    -- for _ in range(conf['n_samples']): y_pred = estimator.predict(X_test)
    match repeatPredict lib estimator conf.data.X_test conf.n_samples with
    | .error e => .error (.external e, conf)
    | .ok y_pred? =>
      -- elapsed_time = (time.time() - start_time) / float(conf['n_samples'])
      let end_time := clock (s.clockIdx + 1)
      if conf.n_samples = 0 then .error (.zeroDiv, conf)
      else
        let elapsed_time := (end_time - start_time) / (conf.n_samples : ℚ)
        let prediction_times := s.prediction_times ++ [elapsed_time]
        match y_pred? with
        | none => .error (.nameError, conf)
        | some y_pred =>
          -- pred_score = conf['prediction_performance_computer'](y_test, y_pred)
          let pred_score :=
            conf.prediction_performance_computer conf.data.y_test y_pred
          let prediction_powers := s.prediction_powers ++ [pred_score]
          .ok { conf := conf, clockIdx := s.clockIdx + 2,
                prediction_powers := prediction_powers,
                prediction_times := prediction_times,
                complexities := complexities }

/-- The whole `for param_value in ...` loop, threaded over the state. -/
def sweepRun {Est Feat Lab Val Pred Err : Type} (lib : Lib Est Feat Lab Pred Err)
    (clock : Nat → ℚ) (s : SweepState Est Feat Lab Val Pred) :
    List Val →
    Except (RunError Err × SweepConf Est Feat Lab Val Pred)
      (SweepState Est Feat Lab Val Pred)
  | [] => .ok s
  | v :: vs =>
    match sweepStep lib clock s v with
    | .error e => .error e
    | .ok s' => sweepRun lib clock s' vs

/-- `benchmark_influence(conf)`. On success we return the triple
`(prediction_powers, prediction_times, complexities)` the Python function
returns, paired with the final state of the caller-visible `conf` object
(which the function mutates); on an exception, the error together with the
`conf` at the point of the raise. -/
def benchmark_influence {Est Feat Lab Val Pred Err : Type}
    (lib : Lib Est Feat Lab Pred Err) (clock : Nat → ℚ)
    (conf : SweepConf Est Feat Lab Val Pred) :
    Except (RunError Err × SweepConf Est Feat Lab Val Pred)
      (List ℚ × List ℚ × List Int × SweepConf Est Feat Lab Val Pred) :=
  match sweepRun lib clock
      { conf := conf, clockIdx := 0, prediction_powers := [],
        prediction_times := [], complexities := [] }
      conf.changing_param_values with
  | .error e => .error e
  | .ok s => .ok (s.prediction_powers, s.prediction_times, s.complexities, s.conf)

/-- Per-value functional reading of one sweep iteration: the estimator built
with the varying parameter set to `v`, fitted, post-processed, and measured;
returns the (complexity, prediction score) pair. This is the clock-free
specification the loop body is proved to refine. -/
def iterOne {Est Feat Lab Val Pred Err : Type} (lib : Lib Est Feat Lab Pred Err)
    (conf : SweepConf Est Feat Lab Val Pred) (v : Val) : Except Err (Int × ℚ) := do
  let estimator :=
    conf.estimator (dictSet conf.tuned_params conf.changing_param v)
  let fitted ← lib.fit estimator conf.data.X_train conf.data.y_train
  let est := conf.postfit_hook fitted
  let y ← lib.predict est conf.data.X_test
  pure (conf.complexity_computer est,
        conf.prediction_performance_computer conf.data.y_test y)

/-- `iterOne` mapped down the varying-parameter value list, short-circuiting
on the first library error (Python's exception propagation). -/
def iterResults {Est Feat Lab Val Pred Err : Type} (lib : Lib Est Feat Lab Pred Err)
    (conf : SweepConf Est Feat Lab Val Pred) :
    List Val → Except Err (List (Int × ℚ))
  | [] => .ok []
  | v :: vs => do
    let r ← iterOne lib conf v
    let rs ← iterResults lib conf vs
    pure (r :: rs)

/-- The latency list the sweep records: entry `i` is the difference of the
two clock readings bracketing the `i`-th predict loop, divided by
`n_samples`. -/
def timesSpec (clock : Nat → ℚ) (k0 n len : Nat) : List ℚ :=
  (List.range len).map
    (fun i => (clock (k0 + 2 * i + 1) - clock (k0 + 2 * i)) / (n : ℚ))

/-! ## OOB-error trajectory tracker (second notebook) -/

/-- The external ensemble library for the OOB notebook: `setParamsFit c i X y`
models `clf.set_params(n_estimators=i); clf.fit(X, y)` returning the
warm-started classifier's new state, and `oob_score` models reading
`clf.oob_score_` after that fit. -/
structure ForestLib (Clf Feat Lab : Type) where
  setParamsFit : Clf → Nat → Feat → Lab → Clf
  oob_score : Clf → ℚ

/-- The inner loop `for i in range(min_estimators, max_estimators + 1)` for a
single classifier: thread the warm-started classifier through the inclusive
size range, recording an `(i, 1 - clf.oob_score_)` pair at each size. -/
def oobTrajectory {Clf Feat Lab : Type} (lib : ForestLib Clf Feat Lab)
    (X : Feat) (y : Lab) (clf : Clf) (min_estimators max_estimators : Nat) :
    List (Nat × ℚ) :=
  ((List.range' min_estimators (max_estimators + 1 - min_estimators)).foldl
    (fun acc i =>
      let clf' := lib.setParamsFit acc.1 i X y
      (clf', acc.2 ++ [(i, 1 - lib.oob_score clf')]))
    (clf, [])).2

/-- The successive classifier states of the warm-start loop, one per visited
ensemble size. -/
def warmStates {Clf Feat Lab : Type} (lib : ForestLib Clf Feat Lab)
    (X : Feat) (y : Lab) : Clf → List Nat → List Clf
  | _, [] => []
  | clf, i :: is =>
    let clf' := lib.setParamsFit clf i X y
    clf' :: warmStates lib X y clf' is

/-- `error_rate = OrderedDict((label, []) for label, _ in ensemble_clfs)`
followed by the double loop appending to `error_rate[label]`: the outer loop
over `(label, clf)` pairs appends that classifier's whole trajectory to the
label's entry (Python dict semantics, so duplicate labels share an entry). -/
def error_rate {Clf Feat Lab : Type} (lib : ForestLib Clf Feat Lab)
    (X : Feat) (y : Lab) (ensemble_clfs : List (String × Clf))
    (min_estimators max_estimators : Nat) : List (String × List (Nat × ℚ)) :=
  let init := ensemble_clfs.foldl (fun d lc => dictSet d lc.1 []) []
  ensemble_clfs.foldl
    (fun d lc =>
      dictSet d lc.1 (((dictGet d lc.1).getD []) ++
        oobTrajectory lib X y lc.2 min_estimators max_estimators))
    init

/-! ## Plot rendering (`plot_influence`) -/

/-- `dict(color=...)` passed as `line`/`titlefont`. -/
structure Line where
  color : String
deriving DecidableEq

/-- A `go.Scatter` trace as built by `plot_influence`: `yaxis` is `none`
when the call omits it (plotly's default left axis). -/
structure ScatterTrace where
  x : List Int
  y : List ℚ
  name : String
  mode : String
  yaxis : Option String
  line : Line
deriving DecidableEq

/-- One axis dict of the `go.Layout` call. -/
structure AxisSpec where
  title : String
  showgrid : Bool
  titlefont : Option Line
  overlaying : Option String
  side : Option String
deriving DecidableEq

/-- The `go.Layout` built by `plot_influence`. -/
structure PlotLayout where
  title : String
  xaxis : AxisSpec
  yaxis : AxisSpec
  yaxis2 : AxisSpec
deriving DecidableEq

/-- The `go.Figure` value `plot_influence` returns. -/
structure Figure where
  data : List ScatterTrace
  layout : PlotLayout
deriving DecidableEq

/-- `plot_influence(conf, mse_values, prediction_times, complexities)`:
two traces over the complexity x-values and a dual-axis layout. The `%`
format strings become string concatenation. -/
def plot_influence {Est Feat Lab Val Pred : Type}
    (conf : SweepConf Est Feat Lab Val Pred)
    (mse_values prediction_times : List ℚ) (complexities : List Int) : Figure :=
  let p1 : ScatterTrace :=
    { x := complexities, y := mse_values, name := "prediction error",
      mode := "lines", yaxis := none, line := { color := "blue" } }
  let p2 : ScatterTrace :=
    { x := complexities, y := prediction_times, name := "latency",
      mode := "lines", yaxis := some "y2", line := { color := "red" } }
  let layout : PlotLayout :=
    { title := "Influence of Model Complexity - " ++ conf.estimator_name,
      xaxis := { title := "Model Complexity (" ++ conf.complexity_label ++ ")",
                 showgrid := false, titlefont := none, overlaying := none,
                 side := none },
      yaxis := { title := conf.prediction_performance_label, showgrid := false,
                 titlefont := some { color := "blue" }, overlaying := none,
                 side := none },
      yaxis2 := { title := "Time (s)", showgrid := false,
                  titlefont := some { color := "red" },
                  overlaying := some "y", side := some "right" } }
  { data := [p1, p2], layout := layout }

/-! ## Concrete instances used to witness the theorems -/

/-- A small concrete external library over integer estimators. -/
def demoLib : Lib Int Unit Unit Int String :=
  { fit := fun est _ _ => .ok (est + 1), predict := fun est _ => .ok (2 * est) }

/-- The same library with a failing `fit`. -/
def demoLibFail : Lib Int Unit Unit Int String :=
  { fit := fun _ _ _ => .error "fit failed", predict := fun est _ => .ok est }

/-- A small concrete configuration in the shape of the `configurations`
entries: one fixed hyperparameter and a two-value sweep of key `p`. -/
def demoConf : SweepConf Int Unit Unit Int Int :=
  { estimator := fun tp => (dictGet tp "p").getD 0,
    estimator_name := "Demo",
    tuned_params := [("alpha", 7)],
    changing_param := "p",
    changing_param_values := [3, 5],
    complexity_label := "n_coefficients",
    complexity_computer := fun est => est,
    prediction_performance_computer := fun _ y => (y : ℚ),
    prediction_performance_label := "MSE",
    postfit_hook := fun est => est,
    data := { X_train := (), X_test := (), y_train := (), y_test := () },
    n_samples := 2 }

/-- `demoConf` with an empty varying-value list. -/
def demoConfEmpty : SweepConf Int Unit Unit Int Int :=
  { demoConf with changing_param_values := [] }

/-- Integer-valued clock. -/
def demoClock : Nat → ℚ := fun i => (i : ℚ)

/-- A second, different clock. -/
def demoClock2 : Nat → ℚ := fun i => 2 * (i : ℚ) + 1

/-- A concrete ensemble library whose OOB score alternates with the
ensemble size, so the recorded error values are not monotonic. -/
def oobDemoLib : ForestLib ℚ Unit Unit :=
  { setParamsFit := fun _ i _ _ => if i % 2 = 0 then 1 else 0,
    oob_score := fun c => c }

theorem dictSet_dictSet {V : Type} (d : List (String × V)) (k : String) (v w : V) :
    dictSet (dictSet d k v) k w = dictSet d k w := by
  induction d with
  | nil => simp [dictSet]
  | cons p d ih =>
    by_cases hp : p.1 = k
    · simp [dictSet, hp]
    · simp [dictSet, hp, ih]

/-- Setting the varying parameter before a sweep iteration does not change
that iteration's functional result: the iteration overwrites the key
anyway. -/
theorem iterOne_dictSet {Est Feat Lab Val Pred Err : Type}
    (lib : Lib Est Feat Lab Pred Err) (conf : SweepConf Est Feat Lab Val Pred)
    (w v : Val) :
    iterOne lib
      { conf with tuned_params := dictSet conf.tuned_params conf.changing_param w }
      v = iterOne lib conf v := by
  simp [iterOne, dictSet_dictSet]

theorem iterResults_dictSet {Est Feat Lab Val Pred Err : Type}
    (lib : Lib Est Feat Lab Pred Err) (conf : SweepConf Est Feat Lab Val Pred)
    (w : Val) (vs : List Val) :
    iterResults lib
      { conf with tuned_params := dictSet conf.tuned_params conf.changing_param w }
      vs = iterResults lib conf vs := by
  induction vs with
  | nil => rfl
  | cons v vs ih => simp [iterResults, iterOne_dictSet, ih]

/-- With at least one repetition, the predict loop behaves as a single
`predict` call (each repetition is the same pure call). -/
theorem repeatPredict_pos {Est Feat Lab Pred Err : Type}
    (lib : Lib Est Feat Lab Pred Err) (est : Est) (X : Feat) (n : Nat)
    (hn : 0 < n) :
    repeatPredict lib est X n = (lib.predict est X).map some := by
  induction n with
  | zero => exact absurd hn (by simp)
  | succ m ih =>
    cases hm : m with
    | zero =>
      cases hp : lib.predict est X <;>
        simp [repeatPredict, hp, Except.map, bind, Except.bind, pure, Except.pure]
    | succ m' =>
      rw [← hm]
      have ihm := ih (by omega)
      cases hp : lib.predict est X <;>
        simp [repeatPredict, ihm, hp, Except.map, bind, Except.bind, pure, Except.pure]

/-- A successful loop iteration: `n_samples` is positive, the clock-free
iteration spec succeeds, and the new state is the old one with the varying
parameter set, two clock reads consumed, and one entry appended to each of
the three lists. -/
theorem sweepStep_ok {Est Feat Lab Val Pred Err : Type}
    (lib : Lib Est Feat Lab Pred Err) (clock : Nat → ℚ)
    (s s' : SweepState Est Feat Lab Val Pred) (v : Val)
    (h : sweepStep lib clock s v = .ok s') :
    0 < s.conf.n_samples ∧
    ∃ r, iterOne lib s.conf v = .ok r ∧
      s' = { conf := { s.conf with
                tuned_params := dictSet s.conf.tuned_params s.conf.changing_param v },
             clockIdx := s.clockIdx + 2,
             prediction_powers := s.prediction_powers ++ [r.2],
             prediction_times := s.prediction_times ++
               [(clock (s.clockIdx + 1) - clock s.clockIdx) / (s.conf.n_samples : ℚ)],
             complexities := s.complexities ++ [r.1] } := by
  unfold sweepStep at h
  dsimp only at h
  split at h
  · exact absurd h (by simp)
  case _ fitted hfit =>
    split at h
    · exact absurd h (by simp)
    case _ ypred? hpred =>
      split at h
      · exact absurd h (by simp)
      case _ h0 =>
        have hn : 0 < s.conf.n_samples := Nat.pos_of_ne_zero h0
        rw [repeatPredict_pos lib _ _ _ hn] at hpred
        cases hp : lib.predict (s.conf.postfit_hook fitted) s.conf.data.X_test with
        | error e => rw [hp] at hpred; exact absurd hpred (by simp [Except.map])
        | ok y =>
          rw [hp] at hpred
          simp only [Except.map, Except.ok.injEq] at hpred
          subst hpred
          split at h
          · exact absurd h (by simp)
          case _ y' hy =>
            cases hy
            refine ⟨hn, (s.conf.complexity_computer (s.conf.postfit_hook fitted),
              s.conf.prediction_performance_computer s.conf.data.y_test y), ?_, ?_⟩
            · simp [iterOne, hfit, hp, bind, Except.bind, pure, Except.pure]
            · simpa using h.symm

/-- A failing loop iteration: the returned `conf` is the input `conf` with
the varying parameter already set; when `n_samples` is positive the error
is exactly the external library error that the clock-free iteration spec
produces. -/
theorem sweepStep_err {Est Feat Lab Val Pred Err : Type}
    (lib : Lib Est Feat Lab Pred Err) (clock : Nat → ℚ)
    (s : SweepState Est Feat Lab Val Pred) (v : Val) (er : RunError Err)
    (c' : SweepConf Est Feat Lab Val Pred)
    (h : sweepStep lib clock s v = .error (er, c')) :
    c' = { s.conf with
            tuned_params := dictSet s.conf.tuned_params s.conf.changing_param v } ∧
    (0 < s.conf.n_samples →
      ∃ e, er = .external e ∧ iterOne lib s.conf v = .error e) := by
  unfold sweepStep at h
  dsimp only at h
  split at h
  case _ e hfit =>
    simp only [Except.error.injEq, Prod.mk.injEq] at h
    refine ⟨h.2.symm, fun _ => ⟨e, h.1.symm, ?_⟩⟩
    simp [iterOne, hfit, bind, Except.bind]
  case _ fitted hfit =>
    split at h
    case _ e hpred =>
      simp only [Except.error.injEq, Prod.mk.injEq] at h
      refine ⟨h.2.symm, fun hn => ⟨e, h.1.symm, ?_⟩⟩
      rw [repeatPredict_pos lib _ _ _ hn] at hpred
      cases hp : lib.predict (s.conf.postfit_hook fitted) s.conf.data.X_test with
      | error e0 =>
        rw [hp] at hpred
        simp only [Except.map, Except.error.injEq] at hpred
        subst hpred
        simp [iterOne, hfit, hp, bind, Except.bind]
      | ok y => rw [hp] at hpred; exact absurd hpred (by simp [Except.map])
    case _ ypred? hpred =>
      split at h
      case _ h0 =>
        simp only [Except.error.injEq, Prod.mk.injEq] at h
        exact ⟨h.2.symm, fun hn => absurd h0 (by omega)⟩
      case _ h0 =>
        have hn : 0 < s.conf.n_samples := Nat.pos_of_ne_zero h0
        rw [repeatPredict_pos lib _ _ _ hn] at hpred
        cases hp : lib.predict (s.conf.postfit_hook fitted) s.conf.data.X_test with
        | error e0 => rw [hp] at hpred; exact absurd hpred (by simp [Except.map])
        | ok y =>
          rw [hp] at hpred
          simp only [Except.map, Except.ok.injEq] at hpred
          subst hpred
          simp at h

/-- Completeness of a loop iteration: with positive `n_samples`, a
successful clock-free iteration yields a successful `sweepStep`. -/
theorem sweepStep_complete {Est Feat Lab Val Pred Err : Type}
    (lib : Lib Est Feat Lab Pred Err) (clock : Nat → ℚ)
    (s : SweepState Est Feat Lab Val Pred) (v : Val) (r : Int × ℚ)
    (hn : 0 < s.conf.n_samples) (hi : iterOne lib s.conf v = .ok r) :
    sweepStep lib clock s v = .ok
      { conf := { s.conf with
            tuned_params := dictSet s.conf.tuned_params s.conf.changing_param v },
        clockIdx := s.clockIdx + 2,
        prediction_powers := s.prediction_powers ++ [r.2],
        prediction_times := s.prediction_times ++
          [(clock (s.clockIdx + 1) - clock s.clockIdx) / (s.conf.n_samples : ℚ)],
        complexities := s.complexities ++ [r.1] } := by
  cases hfit : lib.fit
      (s.conf.estimator (dictSet s.conf.tuned_params s.conf.changing_param v))
      s.conf.data.X_train s.conf.data.y_train with
  | error e => simp [iterOne, hfit, bind, Except.bind] at hi
  | ok fitted =>
    cases hp : lib.predict (s.conf.postfit_hook fitted) s.conf.data.X_test with
    | error e => simp [iterOne, hfit, hp, bind, Except.bind] at hi
    | ok y =>
      simp only [iterOne, hfit, hp, bind, Except.bind, pure, Except.pure,
        Except.ok.injEq] at hi
      subst hi
      simp [sweepStep, hfit, hp, repeatPredict_pos lib _ _ _ hn, Except.map,
        Nat.pos_iff_ne_zero.mp hn]

theorem timesSpec_zero (clock : Nat → ℚ) (k0 n : Nat) :
    timesSpec clock k0 n 0 = [] := rfl

theorem timesSpec_succ (clock : Nat → ℚ) (k0 n len : Nat) :
    timesSpec clock k0 n (len + 1) =
      ((clock (k0 + 1) - clock k0) / (n : ℚ)) :: timesSpec clock (k0 + 2) n len := by
  unfold timesSpec
  rw [List.range_succ_eq_map, List.map_cons, List.map_map]
  refine congrArg₂ _ (by norm_num) (List.map_congr_left ?_)
  intro i _
  simp only [Function.comp_apply]
  have h1 : k0 + 2 * Nat.succ i + 1 = k0 + 2 + 2 * i + 1 := by omega
  have h2 : k0 + 2 * Nat.succ i = k0 + 2 + 2 * i := by omega
  rw [h1, h2]

theorem timesSpec_length (clock : Nat → ℚ) (k0 n len : Nat) :
    (timesSpec clock k0 n len).length = len := by
  simp [timesSpec]

/-- Successful sweep loop: the outcome is the clock-free iteration results,
appended entrywise to the accumulators; the clock advances two reads per
value; the configuration is unchanged except that the varying parameter has
been set to each value in turn. -/
theorem sweepRun_ok {Est Feat Lab Val Pred Err : Type}
    (lib : Lib Est Feat Lab Pred Err) (clock : Nat → ℚ) (vs : List Val) :
    ∀ (s s' : SweepState Est Feat Lab Val Pred),
      sweepRun lib clock s vs = .ok s' →
      ∃ rs, iterResults lib s.conf vs = .ok rs ∧
        s'.prediction_powers = s.prediction_powers ++ rs.map (·.2) ∧
        s'.prediction_times = s.prediction_times ++
          timesSpec clock s.clockIdx s.conf.n_samples vs.length ∧
        s'.complexities = s.complexities ++ rs.map (·.1) ∧
        s'.clockIdx = s.clockIdx + 2 * vs.length ∧
        s'.conf = { s.conf with
          tuned_params := vs.foldl
            (fun tp w => dictSet tp s.conf.changing_param w) s.conf.tuned_params } := by
  induction vs with
  | nil =>
    intro s s' h
    simp only [sweepRun, Except.ok.injEq] at h
    subst h
    exact ⟨[], rfl, by simp [timesSpec_zero], by simp [timesSpec_zero], by simp,
      by simp, rfl⟩
  | cons v vs ih =>
    intro s s' h
    simp only [sweepRun] at h
    cases hst : sweepStep lib clock s v with
    | error e => rw [hst] at h; exact absurd h (by simp)
    | ok s1 =>
      rw [hst] at h
      obtain ⟨hn, r, hr, hs1⟩ := sweepStep_ok lib clock s s1 v hst
      subst hs1
      obtain ⟨rs', hiter, hpow, htim, hcom, hclk, hconf⟩ := ih _ _ h
      rw [iterResults_dictSet] at hiter
      refine ⟨r :: rs', ?_, ?_, ?_, ?_, ?_, ?_⟩
      · simp [iterResults, hr, hiter, bind, Except.bind, pure, Except.pure]
      · simpa [List.append_assoc] using hpow
      · rw [htim]
        simp [timesSpec_succ, List.append_assoc]
      · simpa [List.append_assoc] using hcom
      · simp only [List.length_cons] at hclk ⊢
        omega
      · rw [hconf]
        simp [List.foldl_cons]

/-- Failing sweep loop: the `conf` surviving the raise differs from the
input only in `tuned_params`, and (with positive `n_samples`) the error is
exactly the external error of the clock-free iteration spec. -/
theorem sweepRun_err {Est Feat Lab Val Pred Err : Type}
    (lib : Lib Est Feat Lab Pred Err) (clock : Nat → ℚ) (vs : List Val) :
    ∀ (s : SweepState Est Feat Lab Val Pred) (er : RunError Err)
      (c' : SweepConf Est Feat Lab Val Pred),
      sweepRun lib clock s vs = .error (er, c') →
      (∃ tp, c' = { s.conf with tuned_params := tp }) ∧
      (0 < s.conf.n_samples →
        ∃ e, er = .external e ∧ iterResults lib s.conf vs = .error e) := by
  induction vs with
  | nil => intro s er c' h; exact absurd h (by simp [sweepRun])
  | cons v vs ih =>
    intro s er c' h
    simp only [sweepRun] at h
    cases hst : sweepStep lib clock s v with
    | error e =>
      rw [hst] at h
      simp only [Except.error.injEq] at h
      subst h
      obtain ⟨hc, he⟩ := sweepStep_err lib clock s v er c' hst
      refine ⟨⟨_, hc⟩, fun hn => ?_⟩
      obtain ⟨e, her, hit⟩ := he hn
      exact ⟨e, her, by simp [iterResults, hit, bind, Except.bind]⟩
    | ok s1 =>
      rw [hst] at h
      obtain ⟨hn1, r, hr, hs1⟩ := sweepStep_ok lib clock s s1 v hst
      subst hs1
      obtain ⟨⟨tp, hc⟩, he⟩ := ih _ _ _ h
      refine ⟨⟨tp, hc⟩, fun hn => ?_⟩
      obtain ⟨e, her, hit⟩ := he hn
      rw [iterResults_dictSet] at hit
      exact ⟨e, her, by simp [iterResults, hr, hit, bind, Except.bind]⟩

/-- With positive `n_samples`, a failing clock-free iteration in the value
list makes the sweep loop fail with exactly that external error. -/
theorem sweepRun_of_iterResults_err {Est Feat Lab Val Pred Err : Type}
    (lib : Lib Est Feat Lab Pred Err) (clock : Nat → ℚ) (vs : List Val) :
    ∀ (s : SweepState Est Feat Lab Val Pred) (e : Err),
      0 < s.conf.n_samples →
      iterResults lib s.conf vs = .error e →
      ∃ c', sweepRun lib clock s vs = .error (.external e, c') := by
  induction vs with
  | nil => intro s e _ h; exact absurd h (by simp [iterResults])
  | cons v vs ih =>
    intro s e hn h
    cases hi : iterOne lib s.conf v with
    | error e0 =>
      have he : e0 = e := by
        simp [iterResults, hi, bind, Except.bind] at h
        exact h
      subst he
      have hstep : sweepStep lib clock s v = .error (.external e0,
          { s.conf with
            tuned_params := dictSet s.conf.tuned_params s.conf.changing_param v }) := by
        cases hfit : lib.fit
            (s.conf.estimator (dictSet s.conf.tuned_params s.conf.changing_param v))
            s.conf.data.X_train s.conf.data.y_train with
        | error e1 =>
          have : e1 = e0 := by
            simp [iterOne, hfit, bind, Except.bind] at hi
            exact hi
          subst this
          simp [sweepStep, hfit]
        | ok fitted =>
          cases hp : lib.predict (s.conf.postfit_hook fitted) s.conf.data.X_test with
          | error e1 =>
            have : e1 = e0 := by
              simp [iterOne, hfit, hp, bind, Except.bind] at hi
              exact hi
            subst this
            simp [sweepStep, hfit, hp, repeatPredict_pos lib _ _ _ hn, Except.map]
          | ok y =>
            simp [iterOne, hfit, hp, bind, Except.bind, pure, Except.pure] at hi
      refine ⟨{ s.conf with
          tuned_params := dictSet s.conf.tuned_params s.conf.changing_param v }, ?_⟩
      simp [sweepRun, hstep]
    | ok r =>
      have hrest : iterResults lib s.conf vs = .error e := by
        simp only [iterResults, hi, bind, Except.bind] at h
        cases hr : iterResults lib s.conf vs with
        | error e1 => rw [hr] at h; simp at h; rw [h]
        | ok rs => rw [hr] at h; simp [pure, Except.pure] at h
      have hstep := sweepStep_complete lib clock s v r hn hi
      obtain ⟨c', hrun⟩ := ih
        { conf := { s.conf with
            tuned_params := dictSet s.conf.tuned_params s.conf.changing_param v },
          clockIdx := s.clockIdx + 2,
          prediction_powers := s.prediction_powers ++ [r.2],
          prediction_times := s.prediction_times ++
            [(clock (s.clockIdx + 1) - clock s.clockIdx) / (s.conf.n_samples : ℚ)],
          complexities := s.complexities ++ [r.1] } e hn
        (by rw [iterResults_dictSet]; exact hrest)
      exact ⟨c', by simp [sweepRun, hstep, hrun]⟩

/-- Successful `benchmark_influence`: the three returned lists are the
entrywise images of the clock-free iteration results (latencies come from
the clock alone), and the returned `conf` differs from the input only by
the folded-in varying-parameter assignments. -/
theorem benchmark_influence_ok {Est Feat Lab Val Pred Err : Type}
    (lib : Lib Est Feat Lab Pred Err) (clock : Nat → ℚ)
    (conf : SweepConf Est Feat Lab Val Pred)
    (powers times : List ℚ) (comps : List Int)
    (conf' : SweepConf Est Feat Lab Val Pred)
    (h : benchmark_influence lib clock conf = .ok (powers, times, comps, conf')) :
    ∃ rs, iterResults lib conf conf.changing_param_values = .ok rs ∧
      powers = rs.map (·.2) ∧
      times = timesSpec clock 0 conf.n_samples conf.changing_param_values.length ∧
      comps = rs.map (·.1) ∧
      conf' = { conf with
                tuned_params := conf.changing_param_values.foldl
                  (fun tp w => dictSet tp conf.changing_param w)
                  conf.tuned_params } := by
  unfold benchmark_influence at h
  cases hrun : sweepRun lib clock
      { conf := conf, clockIdx := 0, prediction_powers := [],
        prediction_times := [], complexities := [] }
      conf.changing_param_values with
  | error e => rw [hrun] at h; exact absurd h (by simp)
  | ok s =>
    rw [hrun] at h
    simp only [Except.ok.injEq, Prod.mk.injEq] at h
    obtain ⟨hp, ht, hc, hcf⟩ := h
    obtain ⟨rs, hiter, hpow, htim, hcom, _, hconf⟩ := sweepRun_ok lib clock _ _ _ hrun
    exact ⟨rs, hiter, by rw [← hp, hpow]; simp, by rw [← ht, htim]; simp,
      by rw [← hc, hcom]; simp, by rw [← hcf, hconf]⟩

/-- Failing `benchmark_influence`: the surviving `conf` differs from the
input only in `tuned_params`, and with positive `n_samples` the error is
the external library error of the clock-free iteration spec. -/
theorem benchmark_influence_err {Est Feat Lab Val Pred Err : Type}
    (lib : Lib Est Feat Lab Pred Err) (clock : Nat → ℚ)
    (conf : SweepConf Est Feat Lab Val Pred) (er : RunError Err)
    (c' : SweepConf Est Feat Lab Val Pred)
    (h : benchmark_influence lib clock conf = .error (er, c')) :
    (∃ tp, c' = { conf with tuned_params := tp }) ∧
    (0 < conf.n_samples →
      ∃ e, er = .external e ∧
        iterResults lib conf conf.changing_param_values = .error e) := by
  unfold benchmark_influence at h
  cases hrun : sweepRun lib clock
      { conf := conf, clockIdx := 0, prediction_powers := [],
        prediction_times := [], complexities := [] }
      conf.changing_param_values with
  | error e =>
    rw [hrun] at h
    simp only [Except.error.injEq] at h
    subst h
    exact sweepRun_err lib clock _ _ _ _ hrun
  | ok s => rw [hrun] at h; exact absurd h (by simp)

/-- With positive `n_samples`, a failing clock-free iteration makes
`benchmark_influence` fail with that external error. -/
theorem benchmark_influence_err_of_iter {Est Feat Lab Val Pred Err : Type}
    (lib : Lib Est Feat Lab Pred Err) (clock : Nat → ℚ)
    (conf : SweepConf Est Feat Lab Val Pred) (e : Err)
    (hn : 0 < conf.n_samples)
    (h : iterResults lib conf conf.changing_param_values = .error e) :
    ∃ c', benchmark_influence lib clock conf = .error (.external e, c') := by
  obtain ⟨c', hrun⟩ := sweepRun_of_iterResults_err lib clock
    conf.changing_param_values
    { conf := conf, clockIdx := 0, prediction_powers := [],
      prediction_times := [], complexities := [] } e hn h
  exact ⟨c', by unfold benchmark_influence; rw [hrun]⟩

theorem iterResults_length {Est Feat Lab Val Pred Err : Type}
    (lib : Lib Est Feat Lab Pred Err) (conf : SweepConf Est Feat Lab Val Pred) :
    ∀ (vs : List Val) (rs : List (Int × ℚ)),
      iterResults lib conf vs = .ok rs → rs.length = vs.length := by
  intro vs
  induction vs with
  | nil =>
    intro rs h
    simp only [iterResults, Except.ok.injEq] at h
    simp [← h]
  | cons v vs ih =>
    intro rs h
    cases hi : iterOne lib conf v with
    | error e => simp [iterResults, hi, bind, Except.bind] at h
    | ok r =>
      cases hr : iterResults lib conf vs with
      | error e => simp [iterResults, hi, hr, bind, Except.bind] at h
      | ok rs' =>
        simp only [iterResults, hi, hr, bind, Except.bind, pure, Except.pure,
          Except.ok.injEq] at h
        subst h
        simp [ih rs' hr]

theorem foldl_dictSet_getLast {V : Type} (k : String) :
    ∀ (vs : List V) (tp : List (String × V)) (w : V), vs.getLast? = some w →
      vs.foldl (fun tp v => dictSet tp k v) tp = dictSet tp k w := by
  intro vs
  induction vs with
  | nil => intro tp w h; simp at h
  | cons v vs ih =>
    intro tp w h
    cases vs with
    | nil =>
      simp only [List.getLast?_singleton, Option.some.injEq] at h
      subst h
      rfl
    | cons v2 vs2 =>
      rw [List.getLast?_cons_cons] at h
      calc List.foldl (fun tp v => dictSet tp k v) tp (v :: v2 :: vs2)
          = List.foldl (fun tp v => dictSet tp k v) (dictSet tp k v) (v2 :: vs2) :=
            rfl
        _ = dictSet (dictSet tp k v) k w := ih (dictSet tp k v) w h
        _ = dictSet tp k w := dictSet_dictSet tp k v w

theorem timesSpec_get (clock : Nat → ℚ) (k0 n len i : Nat)
    (hi : i < (timesSpec clock k0 n len).length) :
    (timesSpec clock k0 n len).get ⟨i, hi⟩ =
      (clock (k0 + 2 * i + 1) - clock (k0 + 2 * i)) / (n : ℚ) := by
  simp [timesSpec, List.get_eq_getElem]

/-- Evaluation of the sweep on the concrete demo inputs. -/
theorem demoBenchmarkEval : benchmark_influence demoLib demoClock demoConf =
    .ok ([8, 12], [1/2, 1/2], [4, 6],
      { demoConf with tuned_params := [("alpha", 7), ("p", 5)] }) := by
  simp [benchmark_influence, sweepRun, sweepStep, repeatPredict, demoLib, demoConf,
    demoClock, dictSet, dictGet, bind, Except.bind, pure, Except.pure]
  norm_num

/-- Evaluation of the sweep on the demo inputs under the second clock. -/
theorem demoBenchmarkEval2 : benchmark_influence demoLib demoClock2 demoConf =
    .ok ([8, 12], [1, 1], [4, 6],
      { demoConf with tuned_params := [("alpha", 7), ("p", 5)] }) := by
  simp [benchmark_influence, sweepRun, sweepStep, repeatPredict, demoLib, demoConf,
    demoClock2, dictSet, dictGet, bind, Except.bind, pure, Except.pure]
  norm_num

/-- The failing library fails the very first clock-free iteration. -/
theorem demoIterFail :
    iterResults demoLibFail demoConf demoConf.changing_param_values =
      .error "fit failed" := by
  simp [iterResults, iterOne, demoLibFail, demoConf, bind, Except.bind]

/-- C1: on every successful run, `benchmark_influence` returns three
sequences whose lengths each equal the length of the varying-parameter
value list, with entry `i` determined by value `i`: errors and complexities
are the entrywise image of the per-value iteration results (`iterResults`
maps down the value list in order), and the `i`-th latency comes from the
`i`-th pair of clock readings. -/
theorem C1_sweep_result_alignment {Est Feat Lab Val Pred Err : Type}
    (lib : Lib Est Feat Lab Pred Err) (clock : Nat → ℚ)
    (conf : SweepConf Est Feat Lab Val Pred)
    (powers times : List ℚ) (comps : List Int)
    (conf' : SweepConf Est Feat Lab Val Pred)
    (h : benchmark_influence lib clock conf = .ok (powers, times, comps, conf')) :
    powers.length = conf.changing_param_values.length ∧
    times.length = conf.changing_param_values.length ∧
    comps.length = conf.changing_param_values.length ∧
    ∃ rs, iterResults lib conf conf.changing_param_values = .ok rs ∧
      powers = rs.map (·.2) ∧ comps = rs.map (·.1) ∧
      times = timesSpec clock 0 conf.n_samples conf.changing_param_values.length := by
  obtain ⟨rs, hiter, hpow, htim, hcom, hconf⟩ :=
    benchmark_influence_ok lib clock conf powers times comps conf' h
  have hlen := iterResults_length lib conf _ rs hiter
  exact ⟨by rw [hpow]; simp [hlen], by rw [htim, timesSpec_length],
    by rw [hcom]; simp [hlen], rs, hiter, hpow, hcom, htim⟩

theorem C1_witness :
    ([(8 : ℚ), 12]).length = demoConf.changing_param_values.length ∧
    ([(1 : ℚ)/2, 1/2]).length = demoConf.changing_param_values.length ∧
    ([(4 : Int), 6]).length = demoConf.changing_param_values.length ∧
    ∃ rs, iterResults demoLib demoConf demoConf.changing_param_values = .ok rs ∧
      [(8 : ℚ), 12] = rs.map (·.2) ∧ [(4 : Int), 6] = rs.map (·.1) ∧
      [(1 : ℚ)/2, 1/2] =
        timesSpec demoClock 0 demoConf.n_samples
          demoConf.changing_param_values.length :=
  C1_sweep_result_alignment demoLib demoClock demoConf _ _ _ _ demoBenchmarkEval

/-- C2 is false as stated: on the concrete demo configuration the sweep
returns, but the configuration's fixed-hyperparameters dict has been
mutated (the varying key `p` was written into it), so not every field is
unchanged. -/
theorem C2_counterexample :
    benchmark_influence demoLib demoClock demoConf =
      .ok ([8, 12], [1/2, 1/2], [4, 6],
        { demoConf with tuned_params := [("alpha", 7), ("p", 5)] }) ∧
    [(("alpha" : String), (7 : Int)), ("p", 5)] ≠ demoConf.tuned_params :=
  ⟨demoBenchmarkEval, by simp [demoConf]⟩

/-- C2 (amended): after a successful sweep, every field of the
configuration other than the fixed-hyperparameters dict is unchanged; the
dict itself now additionally binds the varying-parameter name to the last
value in the value list, and is unchanged when the value list is empty. -/
theorem C2_conf_mutation {Est Feat Lab Val Pred Err : Type}
    (lib : Lib Est Feat Lab Pred Err) (clock : Nat → ℚ)
    (conf : SweepConf Est Feat Lab Val Pred)
    (powers times : List ℚ) (comps : List Int)
    (conf' : SweepConf Est Feat Lab Val Pred)
    (h : benchmark_influence lib clock conf = .ok (powers, times, comps, conf')) :
    conf' = { conf with tuned_params := conf'.tuned_params } ∧
    (∀ w, conf.changing_param_values.getLast? = some w →
      conf'.tuned_params = dictSet conf.tuned_params conf.changing_param w) ∧
    (conf.changing_param_values = [] → conf' = conf) := by
  obtain ⟨rs, hiter, hpow, htim, hcom, hconf⟩ :=
    benchmark_influence_ok lib clock conf powers times comps conf' h
  subst hconf
  refine ⟨rfl, fun w hw => foldl_dictSet_getLast conf.changing_param _ _ w hw,
    fun hnil => ?_⟩
  have hfold : List.foldl (fun tp w => dictSet tp conf.changing_param w)
      conf.tuned_params conf.changing_param_values = conf.tuned_params := by
    simp [hnil]
  rw [hfold]

theorem C2_witness :
    [(("alpha" : String), (7 : Int)), ("p", 5)] =
      dictSet demoConf.tuned_params demoConf.changing_param 5 :=
  (C2_conf_mutation demoLib demoClock demoConf _ _ _ _ demoBenchmarkEval).2.1 5
    (by decide)

/-- C5: on every successful run, the `i`-th recorded latency equals the
difference of the two wall-clock readings taken around the `i`-th predict
loop (that loop makes `n_samples` predict calls), divided by `n_samples`:
an average over the fixed number of repetitions. -/
theorem C5_latency_is_average {Est Feat Lab Val Pred Err : Type}
    (lib : Lib Est Feat Lab Pred Err) (clock : Nat → ℚ)
    (conf : SweepConf Est Feat Lab Val Pred)
    (powers times : List ℚ) (comps : List Int)
    (conf' : SweepConf Est Feat Lab Val Pred)
    (h : benchmark_influence lib clock conf = .ok (powers, times, comps, conf'))
    (i : Nat) (hi : i < times.length) :
    times.get ⟨i, hi⟩ =
      (clock (2 * i + 1) - clock (2 * i)) / (conf.n_samples : ℚ) := by
  obtain ⟨rs, hiter, hpow, htim, hcom, hconf⟩ :=
    benchmark_influence_ok lib clock conf powers times comps conf' h
  subst htim
  rw [timesSpec_get]
  norm_num

theorem C5_witness :
    ([(1 : ℚ)/2, 1/2]).get ⟨0, by norm_num⟩ =
      (demoClock (2 * 0 + 1) - demoClock (2 * 0)) / (demoConf.n_samples : ℚ) :=
  C5_latency_is_average demoLib demoClock demoConf _ _ _ _ demoBenchmarkEval 0
    (by norm_num)

/-- C6: the complexity sequence does not depend on the wall clock: two
successful runs of the sweep on the same configuration and library, under
arbitrary (different) clocks, return identical complexity sequences. -/
theorem C6_complexity_deterministic {Est Feat Lab Val Pred Err : Type}
    (lib : Lib Est Feat Lab Pred Err) (clock1 clock2 : Nat → ℚ)
    (conf : SweepConf Est Feat Lab Val Pred)
    (p1 t1 p2 t2 : List ℚ) (c1 c2 : List Int)
    (cf1 cf2 : SweepConf Est Feat Lab Val Pred)
    (h1 : benchmark_influence lib clock1 conf = .ok (p1, t1, c1, cf1))
    (h2 : benchmark_influence lib clock2 conf = .ok (p2, t2, c2, cf2)) :
    c1 = c2 := by
  obtain ⟨rs1, hi1, _, _, hc1, _⟩ :=
    benchmark_influence_ok lib clock1 conf p1 t1 c1 cf1 h1
  obtain ⟨rs2, hi2, _, _, hc2, _⟩ :=
    benchmark_influence_ok lib clock2 conf p2 t2 c2 cf2 h2
  rw [hi1] at hi2
  injection hi2 with hrs
  rw [hc1, hc2, hrs]

theorem C6_witness : [(4 : Int), 6] = [(4 : Int), 6] :=
  C6_complexity_deterministic demoLib demoClock demoClock2 demoConf _ _ _ _ _ _ _ _
    demoBenchmarkEval demoBenchmarkEval2

/-- C7: with a positive repetition count, `benchmark_influence` fails
exactly when an underlying fit or predict call fails, and it propagates
that library error unchanged (wrapped only as the external-exception case),
with no retry and no translation. -/
theorem C7_error_propagation {Est Feat Lab Val Pred Err : Type}
    (lib : Lib Est Feat Lab Pred Err) (clock : Nat → ℚ)
    (conf : SweepConf Est Feat Lab Val Pred) (hn : 0 < conf.n_samples) :
    (∀ e, iterResults lib conf conf.changing_param_values = .error e →
      ∃ c', benchmark_influence lib clock conf = .error (.external e, c')) ∧
    (∀ er c', benchmark_influence lib clock conf = .error (er, c') →
      ∃ e, er = .external e ∧
        iterResults lib conf conf.changing_param_values = .error e) :=
  ⟨fun e he => benchmark_influence_err_of_iter lib clock conf e hn he,
   fun er c' h => (benchmark_influence_err lib clock conf er c' h).2 hn⟩

theorem C7_witness :
    ∃ c', benchmark_influence demoLibFail demoClock demoConf =
      .error (.external "fit failed", c') :=
  (C7_error_propagation demoLibFail demoClock demoConf (by decide)).1
    "fit failed" demoIterFail

/-- C8: `benchmark_influence` never changes the dataset split stored in the
configuration: whether the sweep returns or raises, the surviving
configuration's `data` field (the `X_train`/`X_test`/`y_train`/`y_test`
arrays) equals the input's. -/
theorem C8_data_unchanged {Est Feat Lab Val Pred Err : Type}
    (lib : Lib Est Feat Lab Pred Err) (clock : Nat → ℚ)
    (conf : SweepConf Est Feat Lab Val Pred) :
    (∀ (powers times : List ℚ) (comps : List Int)
      (conf' : SweepConf Est Feat Lab Val Pred),
      benchmark_influence lib clock conf = .ok (powers, times, comps, conf') →
      conf'.data = conf.data) ∧
    (∀ (er : RunError Err) (c' : SweepConf Est Feat Lab Val Pred),
      benchmark_influence lib clock conf = .error (er, c') →
      c'.data = conf.data) := by
  constructor
  · intro powers times comps conf' h
    obtain ⟨rs, _, _, _, _, hconf⟩ :=
      benchmark_influence_ok lib clock conf powers times comps conf' h
    rw [hconf]
  · intro er c' h
    obtain ⟨⟨tp, hc⟩, _⟩ := benchmark_influence_err lib clock conf er c' h
    rw [hc]

theorem C8_witness :
    ({ demoConf with
        tuned_params := [("alpha", 7), ("p", 5)] } :
      SweepConf Int Unit Unit Int Int).data = demoConf.data :=
  (C8_data_unchanged demoLib demoClock demoConf).1 _ _ _ _ demoBenchmarkEval

/-- C10: on a configuration whose varying-parameter value list is empty,
`benchmark_influence` returns three empty sequences and the unchanged
configuration, with no error — for every library, including one whose fit
and predict always raise, so no estimator is constructed, fitted, or used
for prediction. -/
theorem C10_empty_sweep {Est Feat Lab Val Pred Err : Type}
    (lib : Lib Est Feat Lab Pred Err) (clock : Nat → ℚ)
    (conf : SweepConf Est Feat Lab Val Pred)
    (h : conf.changing_param_values = []) :
    benchmark_influence lib clock conf = .ok ([], [], [], conf) := by
  unfold benchmark_influence
  rw [h]
  rfl

theorem C10_witness :
    benchmark_influence demoLibFail demoClock demoConfEmpty =
      .ok ([], [], [], demoConfEmpty) :=
  C10_empty_sweep demoLibFail demoClock demoConfEmpty rfl

/-! ## OOB tracker lemmas -/

theorem warmStates_length {Clf Feat Lab : Type} (lib : ForestLib Clf Feat Lab)
    (X : Feat) (y : Lab) :
    ∀ (L : List Nat) (clf : Clf), (warmStates lib X y clf L).length = L.length := by
  intro L
  induction L with
  | nil => intro clf; rfl
  | cons i is ih => intro clf; simp [warmStates, ih]

theorem oobFoldl_spec {Clf Feat Lab : Type} (lib : ForestLib Clf Feat Lab)
    (X : Feat) (y : Lab) :
    ∀ (L : List Nat) (clf : Clf) (acc : List (Nat × ℚ)),
      (L.foldl (fun acc i =>
          let clf' := lib.setParamsFit acc.1 i X y
          (clf', acc.2 ++ [(i, 1 - lib.oob_score clf')])) (clf, acc)).2 =
        acc ++ L.zip
          ((warmStates lib X y clf L).map (fun c => 1 - lib.oob_score c)) := by
  intro L
  induction L with
  | nil => intro clf acc; simp [warmStates]
  | cons i is ih =>
    intro clf acc
    simp only [List.foldl_cons, warmStates, List.map_cons, List.zip_cons_cons]
    rw [ih]
    simp

/-- The inner OOB loop records exactly the visited size range zipped with
the per-state OOB errors. -/
theorem oobTrajectory_eq {Clf Feat Lab : Type} (lib : ForestLib Clf Feat Lab)
    (X : Feat) (y : Lab) (clf : Clf) (minE maxE : Nat) :
    oobTrajectory lib X y clf minE maxE =
      (List.range' minE (maxE + 1 - minE)).zip
        ((warmStates lib X y clf (List.range' minE (maxE + 1 - minE))).map
          (fun c => 1 - lib.oob_score c)) := by
  unfold oobTrajectory
  rw [oobFoldl_spec]
  simp

theorem dictSet_fresh {V : Type} (k : String) (v : V) :
    ∀ (d : List (String × V)), (∀ p ∈ d, p.1 ≠ k) →
      dictSet d k v = d ++ [(k, v)] := by
  intro d
  induction d with
  | nil => intro _; rfl
  | cons p d ih =>
    intro h
    have hp : p.1 ≠ k := h p (by simp)
    simp only [dictSet, if_neg hp]
    rw [ih (fun q hq => h q (by simp [hq]))]
    simp

theorem dictSet_found {V : Type} (k : String) (v0 v : V) :
    ∀ (d1 : List (String × V)) (d2 : List (String × V)), (∀ p ∈ d1, p.1 ≠ k) →
      dictSet (d1 ++ (k, v0) :: d2) k v = d1 ++ (k, v) :: d2 := by
  intro d1
  induction d1 with
  | nil => intro d2 _; simp [dictSet]
  | cons p d1 ih =>
    intro d2 h
    have hp : p.1 ≠ k := h p (by simp)
    simp only [List.cons_append, dictSet, if_neg hp, List.append_eq]
    rw [ih d2 (fun q hq => h q (by simp [hq]))]

theorem dictGet_found {V : Type} (k : String) (v : V) :
    ∀ (d1 : List (String × V)) (d2 : List (String × V)), (∀ p ∈ d1, p.1 ≠ k) →
      dictGet (d1 ++ (k, v) :: d2) k = some v := by
  intro d1
  induction d1 with
  | nil => intro d2 _; simp [dictGet]
  | cons p d1 ih =>
    intro d2 h
    have hp : p.1 ≠ k := h p (by simp)
    simp only [List.cons_append, dictGet, List.find?, List.append_eq]
    rw [show (decide (p.1 = k)) = false by simp [hp]]
    exact ih d2 (fun q hq => h q (by simp [hq]))

theorem oobInit_eq {Clf : Type} :
    ∀ (clfs : List (String × Clf)) (d : List (String × List (Nat × ℚ))),
      (clfs.map Prod.fst).Nodup →
      (∀ lc ∈ clfs, ∀ p ∈ d, p.1 ≠ lc.1) →
      clfs.foldl (fun d lc => dictSet d lc.1 []) d =
        d ++ clfs.map (fun lc => (lc.1, [])) := by
  intro clfs
  induction clfs with
  | nil => intro d _ _; simp
  | cons lc rest ih =>
    intro d hnd h
    simp only [List.map_cons, List.nodup_cons] at hnd
    simp only [List.foldl_cons]
    rw [dictSet_fresh lc.1 [] d (fun p hp => h lc (by simp) p hp)]
    rw [ih (d ++ [(lc.1, [])]) hnd.2 ?_]
    · simp
    · intro lc' hlc' p hp
      rcases List.mem_append.mp hp with hd | hone
      · exact h lc' (by simp [hlc']) p hd
      · simp only [List.mem_singleton] at hone
        subst hone
        simp only []
        intro hkeq
        exact hnd.1 (hkeq ▸ List.mem_map_of_mem Prod.fst hlc')

theorem oobLoop_eq {Clf Feat Lab : Type} (lib : ForestLib Clf Feat Lab)
    (X : Feat) (y : Lab) (minE maxE : Nat) :
    ∀ (clfs : List (String × Clf)) (done : List (String × List (Nat × ℚ))),
      (clfs.map Prod.fst).Nodup →
      (∀ lc ∈ clfs, ∀ p ∈ done, p.1 ≠ lc.1) →
      clfs.foldl
        (fun d lc =>
          dictSet d lc.1 (((dictGet d lc.1).getD []) ++
            oobTrajectory lib X y lc.2 minE maxE))
        (done ++ clfs.map (fun lc => (lc.1, []))) =
      done ++ clfs.map
        (fun lc => (lc.1, oobTrajectory lib X y lc.2 minE maxE)) := by
  intro clfs
  induction clfs with
  | nil => intro done _ _; simp
  | cons lc rest ih =>
    intro done hnd h
    simp only [List.map_cons, List.nodup_cons] at hnd
    have hfreshdone : ∀ p ∈ done, p.1 ≠ lc.1 := fun p hp => h lc (by simp) p hp
    simp only [List.map_cons, List.foldl_cons]
    rw [dictGet_found lc.1 [] done (rest.map (fun lc => (lc.1, []))) hfreshdone]
    rw [dictSet_found lc.1 [] _ done (rest.map (fun lc => (lc.1, []))) hfreshdone]
    simp only [Option.getD_some, List.nil_append]
    have hrearrange :
        done ++ (lc.1, oobTrajectory lib X y lc.2 minE maxE) ::
            rest.map (fun lc => (lc.1, [])) =
          (done ++ [(lc.1, oobTrajectory lib X y lc.2 minE maxE)]) ++
            rest.map (fun lc => (lc.1, [])) := by
      simp
    rw [hrearrange]
    rw [ih (done ++ [(lc.1, oobTrajectory lib X y lc.2 minE maxE)]) hnd.2 ?_]
    · simp
    · intro lc' hlc' p hp
      rcases List.mem_append.mp hp with hd | hone
      · exact h lc' (by simp [hlc']) p hd
      · simp only [List.mem_singleton] at hone
        subst hone
        simp only []
        intro hkeq
        exact hnd.1 (hkeq ▸ List.mem_map_of_mem Prod.fst hlc')

/-- With pairwise-distinct labels, `error_rate` maps each `(label, clf)`
pair to that classifier's whole OOB trajectory, in order. -/
theorem error_rate_nodup {Clf Feat Lab : Type} (lib : ForestLib Clf Feat Lab)
    (X : Feat) (y : Lab) (clfs : List (String × Clf)) (minE maxE : Nat)
    (hnd : (clfs.map Prod.fst).Nodup) :
    error_rate lib X y clfs minE maxE =
      clfs.map (fun lc => (lc.1, oobTrajectory lib X y lc.2 minE maxE)) := by
  unfold error_rate
  rw [oobInit_eq clfs [] hnd (by simp)]
  rw [show ([] ++ clfs.map (fun lc => (lc.1, ([] : List (Nat × ℚ))))) =
    [] ++ clfs.map (fun lc => (lc.1, [])) from rfl]
  rw [oobLoop_eq lib X y minE maxE clfs [] hnd (by simp)]
  simp

/-- Evaluation of the OOB tracker on the concrete demo inputs. -/
theorem demoOobEval : error_rate oobDemoLib () () [("a", (0 : ℚ)), ("b", 1)] 2 4 =
    [("a", [(2, 0), (3, 1), (4, 0)]), ("b", [(2, 0), (3, 1), (4, 0)])] := by
  have hr : List.range' 2 (4 + 1 - 2) = [2, 3, 4] := rfl
  simp [error_rate, oobTrajectory, hr, oobDemoLib, dictSet, dictGet]

/-- Evaluation of the demo inner loop alone. -/
theorem demoOobTrajEval : oobTrajectory oobDemoLib () () 0 2 4 =
    [(2, 0), (3, 1), (4, 0)] := by
  have hr : List.range' 2 (4 + 1 - 2) = [2, 3, 4] := rfl
  simp [oobTrajectory, hr, oobDemoLib]

/-- C3: with pairwise-distinct configuration labels and
`min_estimators ≤ max_estimators`, every error sequence recorded by the
OOB tracker has length exactly `max_estimators - min_estimators + 1` and
is the inclusive size range zipped with the `1 - oob_score` value of the
warm-started classifier refit at each size. -/
theorem C3_oob_sequence_shape {Clf Feat Lab : Type} (lib : ForestLib Clf Feat Lab)
    (X : Feat) (y : Lab) (clfs : List (String × Clf)) (minE maxE : Nat)
    (hnd : (clfs.map Prod.fst).Nodup) (hle : minE ≤ maxE)
    (l : String) (errs : List (Nat × ℚ))
    (hmem : (l, errs) ∈ error_rate lib X y clfs minE maxE) :
    errs.length = maxE - minE + 1 ∧
    ∃ clf, (l, clf) ∈ clfs ∧
      errs = (List.range' minE (maxE - minE + 1)).zip
        ((warmStates lib X y clf (List.range' minE (maxE - minE + 1))).map
          (fun c => 1 - lib.oob_score c)) := by
  rw [error_rate_nodup lib X y clfs minE maxE hnd] at hmem
  obtain ⟨lc, hlc, heq⟩ := List.mem_map.mp hmem
  cases lc with
  | mk la ca =>
    simp only [] at heq
    injection heq with hl he
    subst hl
    subst he
    have hn : maxE + 1 - minE = maxE - minE + 1 := by omega
    constructor
    · rw [oobTrajectory_eq, List.length_zip, List.length_map,
        warmStates_length, List.length_range', hn]
      simp
    · exact ⟨ca, hlc, by rw [oobTrajectory_eq, hn]⟩

theorem C3_witness :
    ([((2 : Nat), (0 : ℚ)), (3, 1), (4, 0)]).length = 4 - 2 + 1 ∧
    ∃ clf, (("a", clf) ∈ [("a", (0 : ℚ)), ("b", 1)]) ∧
      [((2 : Nat), (0 : ℚ)), (3, 1), (4, 0)] =
        (List.range' 2 (4 - 2 + 1)).zip
          ((warmStates oobDemoLib () () clf (List.range' 2 (4 - 2 + 1))).map
            (fun c => 1 - oobDemoLib.oob_score c)) :=
  C3_oob_sequence_shape oobDemoLib () () [("a", (0 : ℚ)), ("b", 1)] 2 4
    (by simp) (by omega) "a" [(2, 0), (3, 1), (4, 0)]
    (by rw [demoOobEval]; exact List.mem_cons_self _ _)

/-- C4: in every recorded OOB-error sequence the ensemble sizes (first
components) are non-decreasing in recording order, while the error values
themselves need not be monotonic — exhibited by a concrete run whose error
values go up and then down. -/
theorem C4_oob_sizes_monotone {Clf Feat Lab : Type} (lib : ForestLib Clf Feat Lab)
    (X : Feat) (y : Lab) (clfs : List (String × Clf)) (minE maxE : Nat)
    (hnd : (clfs.map Prod.fst).Nodup) (l : String) (errs : List (Nat × ℚ))
    (hmem : (l, errs) ∈ error_rate lib X y clfs minE maxE) :
    List.Pairwise (· ≤ ·) (errs.map Prod.fst) ∧
    ¬ List.Pairwise (· ≤ ·)
      ((oobTrajectory oobDemoLib () () 0 2 4).map Prod.snd) := by
  constructor
  · rw [error_rate_nodup lib X y clfs minE maxE hnd] at hmem
    obtain ⟨lc, hlc, heq⟩ := List.mem_map.mp hmem
    cases lc with
    | mk la ca =>
      simp only [] at heq
      injection heq with hl he
      subst hl
      subst he
      rw [oobTrajectory_eq]
      rw [List.map_fst_zip _ _
        (by rw [List.length_map, warmStates_length, List.length_range'])]
      exact (List.pairwise_lt_range' _ _).imp le_of_lt
  · rw [demoOobTrajEval]
    intro hp
    rw [List.map_cons, List.map_cons, List.map_cons, List.map_nil] at hp
    have h10 := (List.pairwise_cons.mp (List.pairwise_cons.mp hp).2).1
    have := h10 (0 : ℚ) (by simp)
    norm_num at this

theorem C4_witness :
    List.Pairwise (· ≤ ·)
      (([((2 : Nat), (0 : ℚ)), (3, 1), (4, 0)]).map Prod.fst) ∧
    ¬ List.Pairwise (· ≤ ·)
      ((oobTrajectory oobDemoLib () () 0 2 4).map Prod.snd) :=
  C4_oob_sizes_monotone oobDemoLib () () [("a", (0 : ℚ)), ("b", 1)] 2 4
    (by simp) "a" [(2, 0), (3, 1), (4, 0)]
    (by rw [demoOobEval]; exact List.mem_cons_self _ _)

/-- C9: `plot_influence` is a function of its arguments alone (equal
inputs yield the same figure; in this embedding it cannot mutate them),
and the figure it builds is dual-axis: the x-axis title contains the
complexity label, the left y-axis title is the prediction-performance
label, and the second y-axis is a right-side time axis overlaying the
first. -/
theorem C9_plot_structure {Est Feat Lab Val Pred : Type}
    (conf : SweepConf Est Feat Lab Val Pred)
    (mse_values prediction_times : List ℚ) (complexities : List Int) :
    (∃ pre post,
      (plot_influence conf mse_values prediction_times
        complexities).layout.xaxis.title = pre ++ conf.complexity_label ++ post) ∧
    (plot_influence conf mse_values prediction_times
      complexities).layout.yaxis.title = conf.prediction_performance_label ∧
    (plot_influence conf mse_values prediction_times
      complexities).layout.yaxis2.title = "Time (s)" ∧
    (plot_influence conf mse_values prediction_times
      complexities).layout.yaxis2.side = some "right" ∧
    (plot_influence conf mse_values prediction_times
      complexities).layout.yaxis2.overlaying = some "y" ∧
    (∀ (conf2 : SweepConf Est Feat Lab Val Pred) m2 t2 c2,
      conf2 = conf → m2 = mse_values → t2 = prediction_times →
      c2 = complexities →
      plot_influence conf2 m2 t2 c2 =
        plot_influence conf mse_values prediction_times complexities) := by
  refine ⟨⟨"Model Complexity (", ")", rfl⟩, rfl, rfl, rfl, rfl, ?_⟩
  intro conf2 m2 t2 c2 h1 h2 h3 h4
  rw [h1, h2, h3, h4]

theorem C9_witness :
    (∃ pre post,
      (plot_influence demoConf [8, 12] [1/2, 1/2]
        [4, 6]).layout.xaxis.title = pre ++ demoConf.complexity_label ++ post) ∧
    (plot_influence demoConf [8, 12] [1/2, 1/2]
      [4, 6]).layout.yaxis.title = demoConf.prediction_performance_label ∧
    (plot_influence demoConf [8, 12] [1/2, 1/2]
      [4, 6]).layout.yaxis2.title = "Time (s)" ∧
    (plot_influence demoConf [8, 12] [1/2, 1/2]
      [4, 6]).layout.yaxis2.side = some "right" ∧
    (plot_influence demoConf [8, 12] [1/2, 1/2]
      [4, 6]).layout.yaxis2.overlaying = some "y" ∧
    (∀ (conf2 : SweepConf Int Unit Unit Int Int) m2 t2 c2,
      conf2 = demoConf → m2 = [8, 12] → t2 = [1/2, 1/2] →
      c2 = [4, 6] →
      plot_influence conf2 m2 t2 c2 =
        plot_influence demoConf [8, 12] [1/2, 1/2] [4, 6]) :=
  C9_plot_structure demoConf [8, 12] [1/2, 1/2] [4, 6]

end ModelComplexity
